import Mathlib

/-!
Verification of the auth-service credential lifecycle subsystem
(`src/auth-service/app/routes.py`) against its natural-language spec.

The route handlers in `routes.py` are embedded as pure Lean functions over an
explicit store state (`List RefreshTokenRecord`, mirroring the SQLAlchemy
`refresh_tokens` table in insertion order).  The helper module `app/auth.py`
(ClaimsCodec: `create_access_token`, `create_refresh_token`, `decode_token`,
`hash_token`, `verify_password`) and the ORM model `app/models.py` are not part
of the provided sources; those definitions are modelled from the spec (§3,
§4.1, §4.3) and are marked `Modelled from the spec:` below.
-/

namespace AuthService

/-- The identity claims carried by a signed token (spec §3 and §6: `sub`,
`email`, `role`, `type`, `iat`, `exp`), plus the signature.  A signature is
valid when it equals the signing secret (a shallow model of a MAC). -/
structure Token where
  sub : String
  email : String
  role : String
  token_type : String
  iat : Nat
  exp : Nat
  sig : String
  deriving DecidableEq, Repr

/-- A presented bearer credential: either an unparseable string or a
structurally well-formed signed token. -/
inductive PToken where
  | garbage (s : String)
  | signed (t : Token)
  deriving DecidableEq, Repr

/-- The claim dictionary returned by `auth.decode_token` (the code reads
`payload["sub"]`, `payload["email"]`, `payload["role"]`, `payload.get("type")`). -/
structure Payload where
  sub : String
  email : String
  role : String
  token_type : String
  iat : Nat
  exp : Nat
  deriving DecidableEq, Repr

/-- Failure kinds of the codec (spec §4.1). -/
inductive DecodeErr where
  | malformed
  | invalidSignature
  | tokenExpired
  deriving DecidableEq, Repr

/-- Modelled from the spec: §4.1 `decode(token_string, secret) -> claims`
(`app/auth.py:decode_token` is not in the provided sources).  Verifies the
signature and structural validity, fails with `InvalidSignature` if tampered,
`TokenExpired` if the clock is past `expires_at`, `Malformed` if the structure
cannot be parsed.  Pure function of (token, secret, current time). -/
def decode_token (t : PToken) (secret : String) (now : Nat) : Except DecodeErr Payload :=
  match t with
  | .garbage _ => .error .malformed
  | .signed tok =>
    if tok.sig ≠ secret then .error .invalidSignature
    else if tok.exp ≤ now then .error .tokenExpired
    else .ok ⟨tok.sub, tok.email, tok.role, tok.token_type, tok.iat, tok.exp⟩

/-- A one-way digest value (spec §4.3). -/
structure Digest where
  val : PToken
  deriving DecidableEq, Repr

/-- Modelled from the spec: §4.3 `hash(plaintext) -> digest`, a deterministic,
collision-resistant one-way hash of the full token string
(`app/auth.py:hash_token` is not in the provided sources).  Modelled as an
injective constructor: determinism and collision-freedom hold by construction;
one-way-ness plays no role in any claim. -/
def hash_token (t : PToken) : Digest := ⟨t⟩

/-- Modelled from the spec: §4.2 — the access-token TTL is minutes-scale
(`app/auth.py` constant, not in the provided sources).  Times are seconds. -/
def ACCESS_TOKEN_EXPIRE_MINUTES : Nat := 30

/-- Modelled from the spec: §4.2 — the refresh-token TTL is weeks-scale
(`app/auth.py:REFRESH_TOKEN_EXPIRE_DAYS`, not in the provided sources). -/
def REFRESH_TOKEN_EXPIRE_DAYS : Nat := 7

/-- Access-token lifetime in seconds. -/
def ACCESS_TTL : Nat := ACCESS_TOKEN_EXPIRE_MINUTES * 60

/-- Refresh-token lifetime in seconds (`timedelta(days=...)` in the routes). -/
def REFRESH_TTL : Nat := REFRESH_TOKEN_EXPIRE_DAYS * 86400

/-- The `token_data` dict built in the routes: `{"sub", "email", "role"}`. -/
structure TokenData where
  sub : String
  email : String
  role : String
  deriving DecidableEq, Repr

/-- Modelled from the spec: §4.1 `encode` / §4.2 access-token issuance
(`app/auth.py:create_access_token`, not in the provided sources).  Deterministic
given identical inputs and a fixed clock; `exp = issued_at + ttl`. -/
def create_access_token (d : TokenData) (secret : String) (now : Nat) : Token :=
  ⟨d.sub, d.email, d.role, "access", now, now + ACCESS_TTL, secret⟩

/-- Modelled from the spec: §4.1 `encode` / §4.2 refresh-token issuance
(`app/auth.py:create_refresh_token`, not in the provided sources). -/
def create_refresh_token (d : TokenData) (secret : String) (now : Nat) : Token :=
  ⟨d.sub, d.email, d.role, "refresh", now, now + REFRESH_TTL, secret⟩

/-- Modelled from the spec: the user-service password hash
(`user-service/app/auth_utils.py:hash_password` wraps bcrypt); modelled as an
injective tagging function, sufficient for the claims (none depend on it). -/
def hash_password (p : String) : String := "bcrypt$" ++ p

/-- Modelled from the spec: `app/auth.py:verify_password` (not in the provided
sources) checks a plaintext against the stored bcrypt hash. -/
def verify_password (p h : String) : Bool := hash_password p == h

/-- Modelled from the spec: §3 RefreshTokenRecord
(`app/models.py:RefreshToken`, not in the provided sources; the fields are the
ones `routes.py` reads and writes: `user_id`, `token_hash`, `expires_at`,
`revoked`).  The store state is a `List RefreshTokenRecord` in insertion
order; `db.add` appends, and the row a record occupies (its list index) plays
the role of its primary key. -/
structure RefreshTokenRecord where
  user_id : Int
  token_hash : Digest
  expires_at : Nat
  revoked : Bool
  deriving DecidableEq, Repr

/-- Decimal digit value of a character, if any. -/
def charDigit? (c : Char) : Option Nat :=
  if 48 ≤ c.toNat ∧ c.toNat ≤ 57 then some (c.toNat - 48) else none

/-- Accumulating decimal parser over a character list. -/
def digitsToNat : List Char → Nat → Option Nat
  | [], acc => some acc
  | c :: cs, acc =>
    match charDigit? c with
    | none => none
    | some d => digitsToNat cs (acc * 10 + d)

/-- Modelled from the spec: the Python `int(...)` conversion the handlers
apply to the `sub` claim (`int(payload["sub"])`): parses an optionally
negative decimal numeral and fails on any other string. -/
def parseInt? (s : String) : Option Int :=
  match s.data with
  | [] => none
  | '-' :: cs =>
    match cs with
    | [] => none
    | _ => (digitsToNat cs 0).map (fun n => -(n : Int))
  | cs => (digitsToNat cs 0).map (fun n => (n : Int))

/-- An HTTP error response: `HTTPException(status_code, detail)`. -/
structure HErr where
  status : Nat
  detail : String
  deriving DecidableEq, Repr

/-- The `Authorization` header as the handlers interpret it:
absent/falsy, present but not starting with `"Bearer "`, or a bearer
credential (the code then takes `authorization.split(" ")[1]`). -/
inductive Authorization where
  | missing
  | notBearer (s : String)
  | bearer (t : PToken)
  deriving DecidableEq, Repr

/-- Schema `UserInfo`. -/
structure UserInfo where
  id : Int
  email : String
  full_name : String
  deriving DecidableEq, Repr

/-- Schema `TokenResponse` (the `user` field is optional; `/refresh` omits it). -/
structure TokenResponse where
  access_token : PToken
  refresh_token : PToken
  user : Option UserInfo
  deriving DecidableEq, Repr

/-- Schema `TokenVerifyResponse`. -/
structure TokenVerifyResponse where
  user_id : Int
  email : String
  role : String
  deriving DecidableEq, Repr

/-- The predicate of the store query in `/refresh` (routes.py:174-177):
`token_hash == <digest> AND revoked == False`.  Note it does NOT consult
`expires_at`. -/
def activeMatch (r : RefreshTokenRecord) (h : Digest) : Bool :=
  r.token_hash == h && !r.revoked

/-- The query `db.query(RefreshToken).filter(token_hash == h, revoked == False).first()`:
index of the first matching row in insertion order (routes.py:174-177). -/
def findActiveIdx (db : List RefreshTokenRecord) (h : Digest) : Option Nat :=
  match db with
  | [] => none
  | r :: rs => if activeMatch r h then some 0 else (findActiveIdx rs h).map (· + 1)

/-- The assignment `db_token.revoked = True` on the row found earlier (routes.py:192): set the
`revoked` flag of the record at the given index. -/
def revokeAt : List RefreshTokenRecord → Nat → List RefreshTokenRecord
  | [], _ => []
  | r :: rs, 0 => { r with revoked := true } :: rs
  | r :: rs, n + 1 => r :: revokeAt rs n

/-- GET `/verify` (routes.py:114-131).  The handler takes no `db` dependency:
its result is a function of the presented header, the signing secret and the
clock only.  The `HTTPException(401, "Invalid token type")` raised inside the
`try` block for a non-access token is itself caught by the blanket
`except Exception` handler, so every in-`try` failure surfaces as
`401 "Invalid or expired token"` (including a failing `int(payload["sub"])`). -/
def verify_token (authorization : Authorization) (secret : String) (now : Nat) :
    Except HErr TokenVerifyResponse :=
  match authorization with
  | .missing => .error ⟨401, "Invalid authorization header"⟩
  | .notBearer _ => .error ⟨401, "Invalid authorization header"⟩
  | .bearer t =>
    match decode_token t secret now with
    | .error _ => .error ⟨401, "Invalid or expired token"⟩
    | .ok p =>
      if p.token_type ≠ "access" then .error ⟨401, "Invalid or expired token"⟩
      else
        match parseInt? p.sub with
        | none => .error ⟨401, "Invalid or expired token"⟩
        | some uid => .ok ⟨uid, p.email, p.role⟩

/-- POST `/refresh`, read phase (routes.py:165-180): decode the presented
token, reject non-refresh types, look up the active record.  As in `/verify`,
the `HTTPException(401, "Invalid token type")` raised inside the `try` block is
caught by `except Exception` and replaced by `401 "Invalid or expired token"`.
A lookup miss is `401 "Token revoked or not found"`.  Returns the decoded
payload and the index of the row the ORM object refers to. -/
def refreshReadPhase (req : PToken) (secret : String) (now : Nat)
    (db : List RefreshTokenRecord) : Except HErr (Payload × Nat) :=
  match decode_token req secret now with
  | .error _ => .error ⟨401, "Invalid or expired token"⟩
  | .ok p =>
    if p.token_type ≠ "refresh" then .error ⟨401, "Invalid or expired token"⟩
    else
      match findActiveIdx db (hash_token req) with
      | none => .error ⟨401, "Token revoked or not found"⟩
      | some i => .ok (p, i)

/-- POST `/refresh`, write phase (routes.py:182-200): mint the new pair, set
`revoked = True` on the row found at read time, insert the new record, commit.
`int(payload["sub"])` (routes.py:195) sits outside any `try`, so a non-numeric
subject would surface as an unhandled 500 with nothing committed. -/
def refreshWritePhase (p : Payload) (i : Nat) (secret : String) (now : Nat)
    (db : List RefreshTokenRecord) :
    Except HErr TokenResponse × List RefreshTokenRecord :=
  match parseInt? p.sub with
  | none => (.error ⟨500, "Internal Server Error"⟩, db)
  | some uid =>
    let newAccess := create_access_token ⟨p.sub, p.email, p.role⟩ secret now
    let newRefresh := create_refresh_token ⟨p.sub, p.email, p.role⟩ secret now
    let newRec : RefreshTokenRecord :=
      ⟨uid, hash_token (.signed newRefresh), now + REFRESH_TTL, false⟩
    (.ok ⟨.signed newAccess, .signed newRefresh, none⟩, revokeAt db i ++ [newRec])

/-- POST `/refresh` (routes.py:163-205), the two phases run back to back: a
single sequential request reads and then writes with no interleaving.  Every
failure exit happens before any store mutation, so on error the store is
returned unchanged. -/
def refresh_token (req : PToken) (secret : String) (now : Nat)
    (db : List RefreshTokenRecord) :
    Except HErr TokenResponse × List RefreshTokenRecord :=
  match refreshReadPhase req secret now db with
  | .error e => (.error e, db)
  | .ok (p, i) => refreshWritePhase p i secret now db

/-- POST `/logout` (routes.py:207-226): decode the bearer token (any failure
inside the `try`, including a failing `int(payload["sub"])`, surfaces as
`401 "Invalid token"`), then set `revoked = True` on every record of that
subject with `revoked == False`.  The handler never checks the token type. -/
def logout (authorization : Authorization) (secret : String) (now : Nat)
    (db : List RefreshTokenRecord) :
    Except HErr String × List RefreshTokenRecord :=
  match authorization with
  | .missing => (.error ⟨401, "Invalid authorization header"⟩, db)
  | .notBearer _ => (.error ⟨401, "Invalid authorization header"⟩, db)
  | .bearer t =>
    match decode_token t secret now with
    | .error _ => (.error ⟨401, "Invalid token"⟩, db)
    | .ok p =>
      match parseInt? p.sub with
      | none => (.error ⟨401, "Invalid token"⟩, db)
      | some uid =>
        (.ok "Logged out successfully",
         db.map (fun r =>
           if r.user_id == uid && !r.revoked then { r with revoked := true } else r))

/-- The user-service response to `POST /users/register` as `register` branches
on it (routes.py:16-33). -/
structure UserSvcUser where
  id : Int
  email : String
  role : String
  name : String
  deriving DecidableEq, Repr

/-- Outcome of the collaborator call in `/register`. -/
inductive RegisterResp where
  | created (u : UserSvcUser)
  | emailTaken
  | failure
  | netError
  deriving DecidableEq, Repr

/-- POST `/register` (routes.py:13-62).  The collaborator response and the
store-commit outcome are inputs; on a failed commit (`db.commit()` raising)
the handler's `return` is never reached and nothing is persisted, which
FastAPI surfaces as a 500. -/
def register (resp : RegisterResp) (secret : String) (now : Nat)
    (db : List RefreshTokenRecord) (commitOk : Bool) :
    Except HErr TokenResponse × List RefreshTokenRecord :=
  match resp with
  | .emailTaken => (.error ⟨400, "Email already registered"⟩, db)
  | .failure => (.error ⟨500, "Failed to create user"⟩, db)
  | .netError => (.error ⟨503, "User service unavailable"⟩, db)
  | .created u =>
    let d : TokenData := ⟨toString u.id, u.email, u.role⟩
    let access := create_access_token d secret now
    let refresh := create_refresh_token d secret now
    let newRec : RefreshTokenRecord :=
      ⟨u.id, hash_token (.signed refresh), now + REFRESH_TTL, false⟩
    if commitOk then
      (.ok ⟨.signed access, .signed refresh, some ⟨u.id, u.email, u.name⟩⟩,
       db ++ [newRec])
    else (.error ⟨500, "Internal Server Error"⟩, db)

/-- The user-service record returned by `GET /users/by-email` as `login` reads
it (routes.py:66-92). -/
structure UserSvcUserFull where
  id : Int
  email : String
  role : String
  name : String
  hashed_password : String
  is_active : Bool
  deriving DecidableEq, Repr

/-- Outcome of the collaborator call in `/login`. -/
inductive LoginLookup where
  | found (u : UserSvcUserFull)
  | notFound
  | netError
  deriving DecidableEq, Repr

/-- POST `/login` (routes.py:64-112).  Same issuance block as `/register`. -/
def login (lookup : LoginLookup) (password : String) (secret : String) (now : Nat)
    (db : List RefreshTokenRecord) (commitOk : Bool) :
    Except HErr TokenResponse × List RefreshTokenRecord :=
  match lookup with
  | .notFound => (.error ⟨401, "Invalid credentials"⟩, db)
  | .netError => (.error ⟨503, "User service unavailable"⟩, db)
  | .found u =>
    if ¬ verify_password password u.hashed_password then
      (.error ⟨401, "Invalid credentials"⟩, db)
    else if ¬ u.is_active then
      (.error ⟨403, "Account is inactive"⟩, db)
    else
      let d : TokenData := ⟨toString u.id, u.email, u.role⟩
      let access := create_access_token d secret now
      let refresh := create_refresh_token d secret now
      let newRec : RefreshTokenRecord :=
        ⟨u.id, hash_token (.signed refresh), now + REFRESH_TTL, false⟩
      if commitOk then
        (.ok ⟨.signed access, .signed refresh, some ⟨u.id, u.email, u.name⟩⟩,
         db ++ [newRec])
      else (.error ⟨500, "Internal Server Error"⟩, db)

/-! ### Derived notions -/

/-- Number of store rows the `/refresh` query would match for a digest. -/
def countActiveAt (db : List RefreshTokenRecord) (h : Digest) : Nat :=
  (db.filter (fun r => activeMatch r h)).length

/-- Revocation monotonicity between two store states: the store does not
shrink, and every row whose `revoked` flag was `true` keeps it `true`. -/
def RevMono (db db' : List RefreshTokenRecord) : Prop :=
  db.length ≤ db'.length ∧
  ∀ i (h : i < db.length) (h' : i < db'.length),
    (db.get ⟨i, h⟩).revoked = true → (db'.get ⟨i, h'⟩).revoked = true

/-- One client-visible operation of the subsystem, with all of its
request-level inputs, as it acts on the refresh-token store. -/
inductive AuthOp where
  | opRegister (resp : RegisterResp) (secret : String) (now : Nat) (commitOk : Bool)
  | opLogin (lookup : LoginLookup) (password secret : String) (now : Nat) (commitOk : Bool)
  | opVerify (a : Authorization) (secret : String) (now : Nat)
  | opRefresh (req : PToken) (secret : String) (now : Nat)
  | opLogout (a : Authorization) (secret : String) (now : Nat)

/-- The store state after one operation (the `/verify` handler declares no
store dependency, so it leaves the store as is). -/
def applyOp : AuthOp → List RefreshTokenRecord → List RefreshTokenRecord
  | .opRegister resp s n c, db => (register resp s n db c).2
  | .opLogin lk pw s n c, db => (login lk pw s n db c).2
  | .opVerify _ _ _, db => db
  | .opRefresh req s n, db => (refresh_token req s n db).2
  | .opLogout a s n, db => (logout a s n db).2

/-- The verify gateway viewed alongside the service's store state: the GET
`/verify` handler (routes.py:115) declares no `db` dependency, so the ambient
store is ignored — this definition makes that store argument explicit in order
to state store-independence. -/
def verifyInState (a : Authorization) (secret : String) (now : Nat)
    (_db : List RefreshTokenRecord) : Except HErr TokenVerifyResponse :=
  verify_token a secret now

/-! ### Concrete fixtures -/

/-- A validly signed (under secret `"s"`) refresh token. -/
def rTok : Token := ⟨"1", "u@example.com", "user", "refresh", 50, 1000, "s"⟩

/-- A validly signed access token with the same claims. -/
def aTok : Token := ⟨"1", "u@example.com", "user", "access", 50, 1000, "s"⟩

/-- A validly signed access token that is already expired at time 100. -/
def eTok : Token := ⟨"1", "u@example.com", "user", "access", 0, 5, "s"⟩

/-- A store record for `rTok` whose `expires_at` is already in the past at
time 100, with `revoked = false`. -/
def c3rec : RefreshTokenRecord := ⟨1, hash_token (.signed rTok), 0, false⟩

/-- A validly signed refresh token for the race scenario. -/
def c2tok : Token := ⟨"7", "r@example.com", "user", "refresh", 0, 10000, "s"⟩

/-- The active store record backing `c2tok`. -/
def c2rec : RefreshTokenRecord := ⟨7, hash_token (.signed c2tok), 2000, false⟩

/-- The payload `decode_token` yields for `c2tok`. -/
def c2payload : Payload := ⟨"7", "r@example.com", "user", "refresh", 0, 10000⟩

/-- Store state after the first racing writer commits (schedule
read₁, read₂, write₁, write₂ of two `/refresh` calls with the same token). -/
def c2db1 : List RefreshTokenRecord := (refreshWritePhase c2payload 0 "s" 100 [c2rec]).2

/-- Store state after the second racing writer commits. -/
def c2db2 : List RefreshTokenRecord := (refreshWritePhase c2payload 0 "s" 101 c2db1).2

/-! ### Store lemmas -/

theorem countActiveAt_nil (h : Digest) : countActiveAt [] h = 0 := rfl

theorem countActiveAt_cons (r : RefreshTokenRecord) (rs : List RefreshTokenRecord)
    (h : Digest) :
    countActiveAt (r :: rs) h =
      (if activeMatch r h then 1 else 0) + countActiveAt rs h := by
  simp only [countActiveAt, List.filter_cons]
  cases hm : activeMatch r h with
  | false => simp
  | true => simp; omega

theorem countActiveAt_append (xs ys : List RefreshTokenRecord) (h : Digest) :
    countActiveAt (xs ++ ys) h = countActiveAt xs h + countActiveAt ys h := by
  simp [countActiveAt, List.filter_append]

theorem findActiveIdx_eq_none_iff (db : List RefreshTokenRecord) (h : Digest) :
    findActiveIdx db h = none ↔ countActiveAt db h = 0 := by
  induction db with
  | nil => simp [findActiveIdx, countActiveAt]
  | cons r rs ih =>
    rw [countActiveAt_cons]
    cases hm : activeMatch r h with
    | true => simp [findActiveIdx, hm]
    | false => simpa [findActiveIdx, hm] using ih

theorem findActiveIdx_some_pos (db : List RefreshTokenRecord) (h : Digest) (i : Nat)
    (hf : findActiveIdx db h = some i) : 1 ≤ countActiveAt db h := by
  by_contra hc
  have h0 : countActiveAt db h = 0 := by omega
  have := (findActiveIdx_eq_none_iff db h).mpr h0
  rw [this] at hf
  exact Option.noConfusion hf

theorem activeMatch_revoke_false (r : RefreshTokenRecord) (h : Digest) :
    activeMatch { r with revoked := true } h = false := by
  simp [activeMatch]

theorem countActiveAt_revokeAt (db : List RefreshTokenRecord) (h : Digest) (i : Nat)
    (hf : findActiveIdx db h = some i) :
    countActiveAt (revokeAt db i) h + 1 = countActiveAt db h := by
  induction db generalizing i with
  | nil => exact Option.noConfusion hf
  | cons r rs ih =>
    cases hm : activeMatch r h with
    | true =>
      have hi : i = 0 := by
        simp [findActiveIdx, hm] at hf
        omega
      subst hi
      simp [revokeAt, countActiveAt_cons, hm, activeMatch_revoke_false]
      omega
    | false =>
      rw [findActiveIdx, if_neg (by simp [hm])] at hf
      rcases hj : findActiveIdx rs h with _ | j
      · rw [hj] at hf; exact Option.noConfusion hf
      · rw [hj] at hf
        have hij : j + 1 = i := by simpa using hf
        subst hij
        simp [revokeAt, countActiveAt_cons, hm]
        have := ih j hj
        omega

theorem countActiveAt_eq_zero_of_all_false (db : List RefreshTokenRecord) (h : Digest)
    (hall : ∀ r ∈ db, activeMatch r h = false) : countActiveAt db h = 0 := by
  induction db with
  | nil => rfl
  | cons r rs ih =>
    rw [countActiveAt_cons, hall r (List.mem_cons_self r rs)]
    simpa using ih (fun x hx => hall x (List.mem_cons_of_mem r hx))

theorem RevMono.rfl (db : List RefreshTokenRecord) : RevMono db db :=
  ⟨Nat.le_refl _, fun _ _ _ hr => hr⟩

theorem RevMono.trans {a b c : List RefreshTokenRecord}
    (h1 : RevMono a b) (h2 : RevMono b c) : RevMono a c := by
  refine ⟨Nat.le_trans h1.1 h2.1, fun i h h' hr => ?_⟩
  exact h2.2 i (Nat.lt_of_lt_of_le h h1.1) h' (h1.2 i h (Nat.lt_of_lt_of_le h h1.1) hr)

theorem RevMono.append (db xs : List RefreshTokenRecord) : RevMono db (db ++ xs) := by
  induction db with
  | nil => exact ⟨Nat.zero_le _, fun i h => absurd h (Nat.not_lt_zero i)⟩
  | cons r rs ih =>
    refine ⟨by simp, fun i h h' hr => ?_⟩
    cases i with
    | zero => exact hr
    | succ j =>
      exact ih.2 j (Nat.lt_of_succ_lt_succ h) (Nat.lt_of_succ_lt_succ h') hr

theorem RevMono.revokeAt (db : List RefreshTokenRecord) (i : Nat) :
    RevMono db (revokeAt db i) := by
  induction db generalizing i with
  | nil => exact ⟨Nat.le_refl _, fun j h => absurd h (Nat.not_lt_zero j)⟩
  | cons r rs ih =>
    cases i with
    | zero =>
      refine ⟨Nat.le_refl _, fun j h h' hr => ?_⟩
      cases j with
      | zero => rfl
      | succ k => exact hr
    | succ n =>
      refine ⟨Nat.succ_le_succ (ih n).1, fun j h h' hr => ?_⟩
      cases j with
      | zero => exact hr
      | succ k =>
        exact (ih n).2 k (Nat.lt_of_succ_lt_succ h) (Nat.lt_of_succ_lt_succ h') hr

theorem RevMono.map (db : List RefreshTokenRecord)
    (f : RefreshTokenRecord → RefreshTokenRecord)
    (hf : ∀ r, r.revoked = true → (f r).revoked = true) :
    RevMono db (db.map f) := by
  induction db with
  | nil => exact ⟨Nat.le_refl _, fun i h => absurd h (Nat.not_lt_zero i)⟩
  | cons r rs ih =>
    refine ⟨by simp, fun i h h' hr => ?_⟩
    cases i with
    | zero => exact hf r hr
    | succ j => exact ih.2 j (Nat.lt_of_succ_lt_succ h) (by simpa using Nat.lt_of_succ_lt_succ h') hr

theorem length_revokeAt (db : List RefreshTokenRecord) (i : Nat) :
    (revokeAt db i).length = db.length := by
  induction db generalizing i with
  | nil => rfl
  | cons r rs ih =>
    cases i with
    | zero => rfl
    | succ n => simpa [revokeAt] using ih n

theorem activeMatch_set_expires (r : RefreshTokenRecord) (h : Digest) (n : Nat) :
    activeMatch { r with expires_at := n } h = activeMatch r h := rfl

theorem findActiveIdx_map_set_expires (db : List RefreshTokenRecord) (h : Digest)
    (f : RefreshTokenRecord → Nat) :
    findActiveIdx (db.map (fun r => { r with expires_at := f r })) h =
      findActiveIdx db h := by
  induction db with
  | nil => rfl
  | cons r rs ih => simp only [List.map_cons, findActiveIdx, activeMatch_set_expires, ih]

theorem refreshReadPhase_ok (req : PToken) (secret : String) (now : Nat)
    (db : List RefreshTokenRecord) (p : Payload) (i : Nat)
    (h : refreshReadPhase req secret now db = .ok (p, i)) :
    ∃ t : Token, req = .signed t ∧ t.sig = secret ∧ now < t.exp ∧
      t.token_type = "refresh" ∧
      p = ⟨t.sub, t.email, t.role, t.token_type, t.iat, t.exp⟩ ∧
      findActiveIdx db (hash_token req) = some i := by
  cases req with
  | garbage s => simp [refreshReadPhase, decode_token] at h
  | signed t =>
    refine ⟨t, rfl, ?_⟩
    by_cases hsig : t.sig = secret
    · by_cases hexp : t.exp ≤ now
      · simp [refreshReadPhase, decode_token, hsig, hexp] at h
      · by_cases htype : t.token_type = "refresh"
        · rcases hfind : findActiveIdx db (hash_token (.signed t)) with _ | j
          · simp [refreshReadPhase, decode_token, hsig, hexp, htype, hfind] at h
          · simp [refreshReadPhase, decode_token, hsig, hexp, htype, hfind] at h
            obtain ⟨hp, hi⟩ := h
            exact ⟨hsig, by omega, htype, by rw [htype]; exact hp.symm, by rw [hi]⟩
        · simp [refreshReadPhase, decode_token, hsig, hexp, htype] at h
    · simp [refreshReadPhase, decode_token, hsig] at h

theorem refreshWritePhase_ok (p : Payload) (i : Nat) (secret : String) (now : Nat)
    (db : List RefreshTokenRecord) (resp : TokenResponse)
    (db' : List RefreshTokenRecord)
    (h : refreshWritePhase p i secret now db = (.ok resp, db')) :
    ∃ uid, parseInt? p.sub = some uid ∧
      resp = ⟨.signed (create_access_token ⟨p.sub, p.email, p.role⟩ secret now),
              .signed (create_refresh_token ⟨p.sub, p.email, p.role⟩ secret now),
              none⟩ ∧
      db' = revokeAt db i ++
        [⟨uid,
          hash_token (.signed (create_refresh_token ⟨p.sub, p.email, p.role⟩ secret now)),
          now + REFRESH_TTL, false⟩] := by
  rcases hs : parseInt? p.sub with _ | uid
  · simp [refreshWritePhase, hs] at h
  · refine ⟨uid, rfl, ?_⟩
    simp [refreshWritePhase, hs] at h
    exact ⟨h.1.symm, h.2.symm⟩

theorem refresh_fails_of_noActive (t : Token) (secret : String) (now : Nat)
    (db : List RefreshTokenRecord)
    (hsig : t.sig = secret) (hexp : now < t.exp) (htype : t.token_type = "refresh")
    (hnone : findActiveIdx db (hash_token (.signed t)) = none) :
    (refresh_token (.signed t) secret now db).1 =
      .error ⟨401, "Token revoked or not found"⟩ := by
  have hnle : ¬ (t.exp ≤ now) := by omega
  have hread : refreshReadPhase (.signed t) secret now db =
      .error ⟨401, "Token revoked or not found"⟩ := by
    simp [refreshReadPhase, decode_token, hsig, hnle, htype, hnone]
  simp [refresh_token, hread]

/-! ### Claim theorems -/

/-- C7: monotonicity of revocation — every operation of the subsystem
(register, login, verify, refresh, logout, at arbitrary request inputs)
leaves each existing store record in place, either keeping its `revoked` flag
unchanged or setting it from `false` to `true`; no operation ever turns
`revoked` from `true` back to `false` (and the store never shrinks). -/
theorem c7_revocation_monotonic (op : AuthOp) (db : List RefreshTokenRecord) :
    RevMono db (applyOp op db) := by
  cases op with
  | opRegister resp s n c =>
    show RevMono db (register resp s n db c).2
    unfold register
    split
    · exact RevMono.rfl db
    · exact RevMono.rfl db
    · exact RevMono.rfl db
    · split
      · exact RevMono.append db _
      · exact RevMono.rfl db
  | opLogin lk pw s n c =>
    show RevMono db (login lk pw s n db c).2
    unfold login
    split
    · exact RevMono.rfl db
    · exact RevMono.rfl db
    · split
      · exact RevMono.rfl db
      · split
        · exact RevMono.rfl db
        · split
          · exact RevMono.append db _
          · exact RevMono.rfl db
  | opVerify a s n =>
    exact RevMono.rfl db
  | opRefresh req s n =>
    show RevMono db (refresh_token req s n db).2
    unfold refresh_token
    split
    · exact RevMono.rfl db
    · unfold refreshWritePhase
      split
      · exact RevMono.rfl db
      · exact RevMono.trans (RevMono.revokeAt db _) (RevMono.append _ _)
  | opLogout a s n =>
    show RevMono db (logout a s n db).2
    unfold logout
    split
    · exact RevMono.rfl db
    · exact RevMono.rfl db
    · split
      · exact RevMono.rfl db
      · split
        · exact RevMono.rfl db
        · exact RevMono.map db _ (fun r hr => by simp [hr])

/-- Witness for C7 at a concrete operation and store. -/
theorem c7_witness :
    RevMono [⟨1, hash_token (.garbage "g"), 0, true⟩]
      (applyOp (.opLogout .missing "s" 0) [⟨1, hash_token (.garbage "g"), 0, true⟩]) :=
  c7_revocation_monotonic (.opLogout .missing "s" 0)
    [⟨1, hash_token (.garbage "g"), 0, true⟩]

/-- C1: single-use refresh — if a refresh call with token `t` succeeds
(turning store `db` into `db'`), then a later refresh presenting the same
plaintext token fails with `401 "Token revoked or not found"`
(TokenRevokedOrUnknown).  Hypotheses: the store holds at most one active
record for `t`'s digest (the unique-digest invariant of spec §3/§5), the
rotation does not happen at the very second `t` was issued (otherwise the
deterministic codec of §4.1 would mint a byte-identical token), and `t` has
not yet expired on its own at the second call (otherwise the failure is the
earlier decode error instead). -/
theorem c1_single_use_refresh (t : Token) (secret : String) (now1 now2 : Nat)
    (db db' : List RefreshTokenRecord) (resp : TokenResponse)
    (hcount : countActiveAt db (hash_token (.signed t)) ≤ 1)
    (hiat : t.iat ≠ now1)
    (hexp2 : now2 < t.exp)
    (hfst : refresh_token (.signed t) secret now1 db = (.ok resp, db')) :
    (refresh_token (.signed t) secret now2 db').1 =
      .error ⟨401, "Token revoked or not found"⟩ := by
  rcases hr : refreshReadPhase (.signed t) secret now1 db with e | pi
  · simp only [refresh_token] at hfst
    rw [hr] at hfst
    simp at hfst
  · obtain ⟨p, i⟩ := pi
    simp only [refresh_token] at hfst
    rw [hr] at hfst
    obtain ⟨t', ht', hsig, hexp1, htype, hp, hfind⟩ :=
      refreshReadPhase_ok _ _ _ _ _ _ hr
    obtain rfl : t = t' := PToken.signed.inj ht'
    obtain ⟨uid, hsub, hresp, hdb'⟩ :=
      refreshWritePhase_ok _ _ _ _ _ _ _ hfst
    subst hp
    dsimp only at hdb' hsub
    have hneq : create_refresh_token ⟨t.sub, t.email, t.role⟩ secret now1 ≠ t := by
      intro hEq
      have hiatEq : (create_refresh_token ⟨t.sub, t.email, t.role⟩ secret now1).iat = t.iat := by
        rw [hEq]
      simp [create_refresh_token] at hiatEq
      exact hiat hiatEq.symm
    have hnone : findActiveIdx db' (hash_token (.signed t)) = none := by
      rw [hdb', findActiveIdx_eq_none_iff, countActiveAt_append]
      have h1 : 1 ≤ countActiveAt db (hash_token (.signed t)) :=
        findActiveIdx_some_pos db _ i hfind
      have h2 := countActiveAt_revokeAt db (hash_token (.signed t)) i hfind
      have h3 : countActiveAt
          [⟨uid,
            hash_token (.signed (create_refresh_token ⟨t.sub, t.email, t.role⟩ secret now1)),
            now1 + REFRESH_TTL, false⟩] (hash_token (.signed t)) = 0 := by
        rw [countActiveAt_cons, countActiveAt_nil]
        simp [activeMatch, hash_token, hneq]
      omega
    have hnle : ¬ (t.exp ≤ now2) := by omega
    have hread2 : refreshReadPhase (.signed t) secret now2 db' =
        .error ⟨401, "Token revoked or not found"⟩ := by
      simp [refreshReadPhase, decode_token, hsig, hnle, htype, hnone]
    simp [refresh_token, hread2]

/-- Witness for C1 at a concrete store with one active record: the second
presentation of the same refresh token is rejected as revoked-or-unknown. -/
theorem c1_witness :
    (refresh_token (.signed rTok) "s" 150
        (refresh_token (.signed rTok) "s" 100 [c3rec]).2).1 =
      .error ⟨401, "Token revoked or not found"⟩ :=
  c1_single_use_refresh rTok "s" 100 150 [c3rec]
    (refresh_token (.signed rTok) "s" 100 [c3rec]).2
    ⟨.signed (create_access_token ⟨"1", "u@example.com", "user"⟩ "s" 100),
     .signed (create_refresh_token ⟨"1", "u@example.com", "user"⟩ "s" 100), none⟩
    (by decide) (by decide) (by decide) rfl

/-- C9: failed refresh attempts are side-effect free — whenever the `/refresh`
handler fails (decode failure, wrong token type, or store-lookup miss; also on
the unhandled non-numeric-subject 500), the refresh-token store is returned
completely unchanged: no record's revoked flag is flipped and no record is
inserted. -/
theorem c9_failed_refresh_is_side_effect_free (req : PToken) (secret : String)
    (now : Nat) (db : List RefreshTokenRecord) (e : HErr)
    (hfail : (refresh_token req secret now db).1 = .error e) :
    (refresh_token req secret now db).2 = db := by
  rcases hr : refreshReadPhase req secret now db with e' | ⟨p, i⟩
  · simp [refresh_token, hr]
  · rcases hs : parseInt? p.sub with _ | uid
    · simp [refresh_token, hr, refreshWritePhase, hs]
    · exfalso
      simp [refresh_token, hr, refreshWritePhase, hs] at hfail

/-- Witness for C9 at a concrete failing input (a malformed token on the empty
store). -/
theorem c9_witness : (refresh_token (.garbage "x") "s" 0 []).2 = [] :=
  c9_failed_refresh_is_side_effect_free (.garbage "x") "s" 0 []
    ⟨401, "Invalid or expired token"⟩ rfl

/-- C4: evaluating the handlers at the type-confusion inputs.  A validly
signed, unexpired refresh token presented to `/verify`, and a validly signed,
unexpired access token presented to `/refresh`, each fail with the *same*
generic `401 "Invalid or expired token"` response that a malformed token and
an expired token produce — there is no distinguishable WrongTokenType outcome,
because the `HTTPException(401, "Invalid token type")` raised inside the `try`
block is caught by the blanket `except Exception` handler (contrast `/me`,
routes.py:158, which re-raises `HTTPException` before the blanket handler). -/
theorem c4_wrong_token_type_is_indistinguishable :
    verify_token (.bearer (.signed rTok)) "s" 100 =
      .error ⟨401, "Invalid or expired token"⟩
    ∧ verify_token (.bearer (.garbage "junk")) "s" 100 =
      .error ⟨401, "Invalid or expired token"⟩
    ∧ verify_token (.bearer (.signed eTok)) "s" 100 =
      .error ⟨401, "Invalid or expired token"⟩
    ∧ (refresh_token (.signed aTok) "s" 100 []).1 =
      .error ⟨401, "Invalid or expired token"⟩
    ∧ (refresh_token (.garbage "junk") "s" 100 []).1 =
      .error ⟨401, "Invalid or expired token"⟩ :=
  ⟨rfl, rfl, rfl, rfl, rfl⟩

/-- C3 counterexample: a stored record whose `expires_at` is in the past
(here 0, with the clock at 100) and `revoked = false` is still returned by the
store lookup `/refresh` uses, and the refresh call *succeeds* — the claim says
the lookup reports NotFound and refresh fails with TokenRevokedOrUnknown. -/
theorem c3_counterexample :
    c3rec.expires_at < 100 ∧ c3rec.revoked = false ∧
    findActiveIdx [c3rec] (hash_token (.signed rTok)) = some 0 ∧
    ∃ r db', refresh_token (.signed rTok) "s" 100 [c3rec] = (.ok r, db') := by
  exact ⟨by decide, rfl, rfl, ⟨_, _, rfl⟩⟩

/-- C3 (amended): the store lookup `/refresh` uses filters only on
`token_hash` and `revoked = false`; `expires_at` is never consulted
(rewriting every record's `expires_at` arbitrarily leaves the lookup
unchanged), and for any decodable, unexpired refresh token with a matching
non-revoked record the refresh succeeds regardless of the record's
`expires_at`.  Expiry of a refresh token is enforced only through the token's
own `exp` claim at decode time, whose failure is the generic
`401 "Invalid or expired token"`, not TokenRevokedOrUnknown. -/
theorem c3_amended_lookup_ignores_stored_expiry :
    (∀ (db : List RefreshTokenRecord) (h : Digest) (f : RefreshTokenRecord → Nat),
      findActiveIdx (db.map (fun r => { r with expires_at := f r })) h =
        findActiveIdx db h)
    ∧ ∀ (t : Token) (secret : String) (now : Nat) (db : List RefreshTokenRecord)
        (i : Nat) (uid : Int),
        t.sig = secret → now < t.exp → t.token_type = "refresh" →
        parseInt? t.sub = some uid →
        findActiveIdx db (hash_token (.signed t)) = some i →
        ∃ r db', refresh_token (.signed t) secret now db = (.ok r, db') := by
  refine ⟨findActiveIdx_map_set_expires, ?_⟩
  intro t secret now db i uid hsig hexp htype hsub hfind
  have hnle : ¬ (t.exp ≤ now) := by omega
  have hdec : decode_token (.signed t) secret now =
      .ok ⟨t.sub, t.email, t.role, t.token_type, t.iat, t.exp⟩ := by
    simp [decode_token, hsig, hnle]
  have hread : refreshReadPhase (.signed t) secret now db =
      .ok (⟨t.sub, t.email, t.role, t.token_type, t.iat, t.exp⟩, i) := by
    simp [refreshReadPhase, hdec, htype, hfind]
  refine ⟨⟨.signed (create_access_token ⟨t.sub, t.email, t.role⟩ secret now),
          .signed (create_refresh_token ⟨t.sub, t.email, t.role⟩ secret now), none⟩,
         revokeAt db i ++
           [⟨uid, hash_token (.signed (create_refresh_token ⟨t.sub, t.email, t.role⟩ secret now)),
             now + REFRESH_TTL, false⟩], ?_⟩
  simp [refresh_token, hread, refreshWritePhase, hsub]

/-- Witness for the amended C3 at a concrete input: the record's `expires_at`
(0) is in the past at time 100, yet refresh succeeds. -/
theorem c3_amended_witness :
    ∃ r db', refresh_token (.signed rTok) "s" 100 [c3rec] = (.ok r, db') :=
  c3_amended_lookup_ignores_stored_expiry.2 rTok "s" 100 [c3rec] 0 1
    rfl (by decide) rfl (by decide) rfl

/-- C6 counterexample: a validly signed, unexpired *refresh* token presented
as the bearer credential to `/logout` is accepted — the handler decodes the
token and never checks `payload["type"]` (routes.py:213-215), so the
claim that only access-type tokens are accepted fails on the code. -/
theorem c6_counterexample :
    rTok.token_type = "refresh" ∧
    (logout (.bearer (.signed rTok)) "s" 100 []).1 = .ok "Logged out successfully" :=
  ⟨rfl, rfl⟩

/-- C6 (amended): `/logout` requires a bearer credential that decodes under
the signing secret with a numeric subject, and fails with status 401 in every
other case (missing or non-Bearer header, malformed/tampered/expired token,
non-numeric subject); the token's *type* is not checked, so a valid refresh
token presented as the bearer credential is accepted just like an access
token. -/
theorem c6_amended_logout_accepts_any_decodable_token :
    ∀ (a : Authorization) (secret : String) (now : Nat) (db : List RefreshTokenRecord),
      ((logout a secret now db).1.isOk = true ↔
        ∃ t : Token, a = .bearer (.signed t) ∧ t.sig = secret ∧ now < t.exp ∧
          (parseInt? t.sub).isSome = true)
      ∧ ∀ e, (logout a secret now db).1 = .error e → e.status = 401 := by
  intro a secret now db
  cases a with
  | missing =>
    have hres : logout Authorization.missing secret now db =
        (.error ⟨401, "Invalid authorization header"⟩, db) := rfl
    refine ⟨?_, ?_⟩
    · rw [hres]
      constructor
      · intro h; exact Bool.noConfusion h
      · rintro ⟨t', ht', -, -, -⟩; exact Authorization.noConfusion ht'
    · intro e he; rw [hres] at he; cases he; rfl
  | notBearer s =>
    have hres : logout (Authorization.notBearer s) secret now db =
        (.error ⟨401, "Invalid authorization header"⟩, db) := rfl
    refine ⟨?_, ?_⟩
    · rw [hres]
      constructor
      · intro h; exact Bool.noConfusion h
      · rintro ⟨t', ht', -, -, -⟩; exact Authorization.noConfusion ht'
    · intro e he; rw [hres] at he; cases he; rfl
  | bearer pt =>
    cases pt with
    | garbage s =>
      have hres : logout (Authorization.bearer (.garbage s)) secret now db =
          (.error ⟨401, "Invalid token"⟩, db) := rfl
      refine ⟨?_, ?_⟩
      · rw [hres]
        constructor
        · intro h; exact Bool.noConfusion h
        · rintro ⟨t', ht', -, -, -⟩
          exact PToken.noConfusion (Authorization.bearer.inj ht')
      · intro e he; rw [hres] at he; cases he; rfl
    | signed t =>
      by_cases hsig : t.sig = secret
      · by_cases hexp : t.exp ≤ now
        · have hres : logout (Authorization.bearer (.signed t)) secret now db =
              (.error ⟨401, "Invalid token"⟩, db) := by
            simp [logout, decode_token, hsig, hexp]
          refine ⟨?_, ?_⟩
          · rw [hres]
            constructor
            · intro h; exact Bool.noConfusion h
            · rintro ⟨t', ht', -, hexp', -⟩
              obtain rfl : t = t' := PToken.signed.inj (Authorization.bearer.inj ht')
              omega
          · intro e he; rw [hres] at he; cases he; rfl
        · rcases hsub : parseInt? t.sub with _ | uid
          · have hres : logout (Authorization.bearer (.signed t)) secret now db =
                (.error ⟨401, "Invalid token"⟩, db) := by
              simp [logout, decode_token, hsig, hexp, hsub]
            refine ⟨?_, ?_⟩
            · rw [hres]
              constructor
              · intro h; exact Bool.noConfusion h
              · rintro ⟨t', ht', -, -, hsub'⟩
                obtain rfl : t = t' := PToken.signed.inj (Authorization.bearer.inj ht')
                rw [hsub] at hsub'
                exact Bool.noConfusion hsub'
            · intro e he; rw [hres] at he; cases he; rfl
          · have hres : (logout (Authorization.bearer (.signed t)) secret now db).1 =
                .ok "Logged out successfully" := by
              simp [logout, decode_token, hsig, hexp, hsub]
            refine ⟨?_, ?_⟩
            · rw [hres]
              constructor
              · intro _
                exact ⟨t, rfl, hsig, by omega, by rw [hsub]; rfl⟩
              · intro _; rfl
            · intro e he; rw [hres] at he; exact Except.noConfusion he
      · have hres : logout (Authorization.bearer (.signed t)) secret now db =
            (.error ⟨401, "Invalid token"⟩, db) := by
          simp [logout, decode_token, hsig]
        refine ⟨?_, ?_⟩
        · rw [hres]
          constructor
          · intro h; exact Bool.noConfusion h
          · rintro ⟨t', ht', hsig', -, -⟩
            obtain rfl : t = t' := PToken.signed.inj (Authorization.bearer.inj ht')
            exact absurd hsig' hsig
        · intro e he; rw [hres] at he; cases he; rfl

/-- Witness for the amended C6: the concrete refresh token `rTok` decodes, so
logout accepts it. -/
theorem c6_amended_witness :
    (logout (.bearer (.signed rTok)) "s" 100 [c3rec]).1.isOk = true :=
  ((c6_amended_logout_accepts_any_decodable_token
      (.bearer (.signed rTok)) "s" 100 [c3rec]).1).mpr
    ⟨rTok, rfl, rfl, by decide, by decide⟩

/-- C2: the refresh race is open.  `/refresh` performs a plain read
(decode + lookup, routes.py:165-180) followed by a write
(`db_token.revoked = True` on the row found at read time, insert, commit,
routes.py:191-200) with no conditional update, row lock, or unique-digest
constraint visible in the handler.  Under a store that interleaves the two
requests at statement granularity (read-committed), the schedule
read₁, read₂, write₁, write₂ of two `/refresh` calls presenting the identical
plaintext token lets BOTH calls succeed, and afterwards the store holds TWO
active records descended from the token (plus the revoked original) — the
claim says at most one caller succeeds, the rest fail with
TokenRevokedOrUnknown, and exactly one new active record remains. -/
theorem c2_refresh_race_two_winners :
    refreshReadPhase (.signed c2tok) "s" 100 [c2rec] = .ok (c2payload, 0)
    ∧ refreshReadPhase (.signed c2tok) "s" 101 [c2rec] = .ok (c2payload, 0)
    ∧ (refreshWritePhase c2payload 0 "s" 100 [c2rec]).1.isOk = true
    ∧ (refreshWritePhase c2payload 0 "s" 101 c2db1).1.isOk = true
    ∧ (c2db2.filter (fun r => !r.revoked)).length = 2
    ∧ c2db2.length = 3 :=
  ⟨rfl, rfl, rfl, rfl, rfl, rfl⟩

/-- C5: logout revokes all sessions — after a logout whose bearer token names
subject `uid`, any refresh token `t` of that subject (every active store
record carrying `t`'s digest belongs to `uid`) fails a subsequent refresh with
`401 "Token revoked or not found"` (TokenRevokedOrUnknown), because logout set
`revoked = true` on all of the subject's non-revoked records.  The presented
token must still decode as an unexpired refresh token, as in the spec's §8
test (otherwise the earlier decode error fires instead). -/
theorem c5_logout_revokes_all (ta t : Token) (uid : Int) (secret : String)
    (nowL nowR : Nat) (db : List RefreshTokenRecord)
    (hsigA : ta.sig = secret) (hexpA : ¬ ta.exp ≤ nowL)
    (hsubA : parseInt? ta.sub = some uid)
    (howner : ∀ r ∈ db, r.token_hash = hash_token (.signed t) → r.revoked = false →
      r.user_id = uid)
    (hsig : t.sig = secret) (hexp : nowR < t.exp) (htype : t.token_type = "refresh") :
    (logout (.bearer (.signed ta)) secret nowL db).1 = .ok "Logged out successfully" ∧
    (refresh_token (.signed t) secret nowR
        (logout (.bearer (.signed ta)) secret nowL db).2).1 =
      .error ⟨401, "Token revoked or not found"⟩ := by
  have hres : logout (.bearer (.signed ta)) secret nowL db =
      (.ok "Logged out successfully",
       db.map (fun r =>
         if r.user_id == uid && !r.revoked then { r with revoked := true } else r)) := by
    simp [logout, decode_token, hsigA, hexpA, hsubA]
  refine ⟨by rw [hres], ?_⟩
  rw [hres]
  have hall : ∀ r' ∈ db.map (fun r =>
      if r.user_id == uid && !r.revoked then { r with revoked := true } else r),
      activeMatch r' (hash_token (.signed t)) = false := by
    intro r' hr'
    rw [List.mem_map] at hr'
    obtain ⟨r, hrdb, rfl⟩ := hr'
    by_cases hc : (r.user_id == uid && !r.revoked) = true
    · simp only [hc, if_true]
      exact activeMatch_revoke_false r _
    · simp only [hc, if_false]
      by_cases hh : r.token_hash = hash_token (.signed t)
      · by_cases hrev : r.revoked = true
        · simp [activeMatch, hrev]
        · have hrev' : r.revoked = false := by simpa using hrev
          exact absurd (by simp [howner r hrdb hh hrev', hrev']) hc
      · simp [activeMatch, hh]
  have hnone := (findActiveIdx_eq_none_iff _ _).mpr
    (countActiveAt_eq_zero_of_all_false _ _ hall)
  exact refresh_fails_of_noActive t secret nowR _ hsig hexp htype hnone

/-- Witness for C5: one outstanding refresh token for subject 1; logout with
an access token for subject 1; the refresh token is then rejected. -/
theorem c5_witness :
    (logout (.bearer (.signed aTok)) "s" 100 [c3rec]).1 = .ok "Logged out successfully" ∧
    (refresh_token (.signed rTok) "s" 150
        (logout (.bearer (.signed aTok)) "s" 100 [c3rec]).2).1 =
      .error ⟨401, "Token revoked or not found"⟩ :=
  c5_logout_revokes_all aTok rTok 1 "s" 100 150 [c3rec]
    rfl (by decide) (by decide) (by decide) rfl (by decide) rfl

/-- C8: all-or-nothing issuance — for every `/register` or `/login` call, a
token pair is returned only when the store commit succeeded (`commitOk =
true`), and in that case the final store contains a non-revoked record whose
`token_hash` is the digest of the returned refresh token; contrapositively,
when persistence fails no token response is ever returned. -/
theorem c8_issuance_all_or_nothing (resp : RegisterResp) (lk : LoginLookup)
    (pw secret : String) (now : Nat) (db : List RefreshTokenRecord)
    (commitOk : Bool) (r : TokenResponse) :
    ((register resp secret now db commitOk).1 = .ok r →
      commitOk = true ∧ ∃ rc ∈ (register resp secret now db commitOk).2,
        rc.token_hash = hash_token r.refresh_token ∧ rc.revoked = false) ∧
    ((login lk pw secret now db commitOk).1 = .ok r →
      commitOk = true ∧ ∃ rc ∈ (login lk pw secret now db commitOk).2,
        rc.token_hash = hash_token r.refresh_token ∧ rc.revoked = false) := by
  constructor
  · intro h
    cases resp with
    | emailTaken => exact absurd h (by simp [register])
    | failure => exact absurd h (by simp [register])
    | netError => exact absurd h (by simp [register])
    | created u =>
      cases commitOk with
      | false => exact absurd h (by simp [register])
      | true =>
        refine ⟨rfl, ?_⟩
        have hr : r =
            ⟨.signed (create_access_token ⟨toString u.id, u.email, u.role⟩ secret now),
             .signed (create_refresh_token ⟨toString u.id, u.email, u.role⟩ secret now),
             some ⟨u.id, u.email, u.name⟩⟩ := by
          have h' := h
          simp [register] at h'
          exact h'.symm
        refine ⟨⟨u.id,
          hash_token (.signed (create_refresh_token ⟨toString u.id, u.email, u.role⟩ secret now)),
          now + REFRESH_TTL, false⟩, by simp [register], by rw [hr], rfl⟩
  · intro h
    cases lk with
    | notFound => exact absurd h (by simp [login])
    | netError => exact absurd h (by simp [login])
    | found u =>
      by_cases hv : verify_password pw u.hashed_password = true
      · by_cases ha : u.is_active = true
        · cases commitOk with
          | false => exact absurd h (by simp [login, hv, ha])
          | true =>
            refine ⟨rfl, ?_⟩
            have hr : r =
                ⟨.signed (create_access_token ⟨toString u.id, u.email, u.role⟩ secret now),
                 .signed (create_refresh_token ⟨toString u.id, u.email, u.role⟩ secret now),
                 some ⟨u.id, u.email, u.name⟩⟩ := by
              have h' := h
              simp [login, hv, ha] at h'
              exact h'.symm
            refine ⟨⟨u.id,
              hash_token (.signed (create_refresh_token ⟨toString u.id, u.email, u.role⟩ secret now)),
              now + REFRESH_TTL, false⟩, by simp [login, hv, ha], by rw [hr], rfl⟩
        · exact absurd h (by simp [login, hv, ha])
      · exact absurd h (by simp [login, hv])

/-- Witness for C8 at a concrete successful registration. -/
theorem c8_witness :
    true = true ∧ ∃ rc ∈ (register (.created ⟨5, "w@example.com", "user", "W"⟩)
        "s" 100 [] true).2,
      rc.token_hash = hash_token
        (.signed (create_refresh_token ⟨"5", "w@example.com", "user"⟩ "s" 100)) ∧
      rc.revoked = false := by
  exact (c8_issuance_all_or_nothing (.created ⟨5, "w@example.com", "user", "W"⟩)
    .netError "pw" "s" 100 [] true
    ⟨.signed (create_access_token ⟨"5", "w@example.com", "user"⟩ "s" 100),
     .signed (create_refresh_token ⟨"5", "w@example.com", "user"⟩ "s" 100),
     some ⟨5, "w@example.com", "W"⟩⟩).1 rfl

/-- C10: stateless verification — `/verify` declares no store dependency, so
its result is the same under any two store states; in particular an unexpired
access token issued by a successful login still verifies with the subject's
claims after any later logout has mutated the store. -/
theorem c10_stateless_verification :
    (∀ (a : Authorization) (secret : String) (now : Nat)
        (db1 db2 : List RefreshTokenRecord),
      verifyInState a secret now db1 = verifyInState a secret now db2)
    ∧ ∀ (u : UserSvcUserFull) (pw secret : String) (now0 now1 nowL : Nat)
        (db : List RefreshTokenRecord) (commitOk : Bool) (r : TokenResponse)
        (la : Authorization),
        (login (.found u) pw secret now0 db commitOk).1 = .ok r →
        now1 < now0 + ACCESS_TTL →
        parseInt? (toString u.id) = some u.id →
        verifyInState (.bearer r.access_token) secret now1
            (logout la secret nowL
              ((login (.found u) pw secret now0 db commitOk).2)).2 =
          .ok ⟨u.id, u.email, u.role⟩ := by
  refine ⟨fun _ _ _ _ _ => rfl, ?_⟩
  intro u pw secret now0 now1 nowL db commitOk r la hlog hnow hid
  by_cases hv : verify_password pw u.hashed_password = true
  · by_cases ha : u.is_active = true
    · cases commitOk with
      | false => exact absurd hlog (by simp [login, hv, ha])
      | true =>
        have hr : r =
            ⟨.signed (create_access_token ⟨toString u.id, u.email, u.role⟩ secret now0),
             .signed (create_refresh_token ⟨toString u.id, u.email, u.role⟩ secret now0),
             some ⟨u.id, u.email, u.name⟩⟩ := by
          have h' := hlog
          simp [login, hv, ha] at h'
          exact h'.symm
        rw [hr]
        have hnle : ¬ (now0 + ACCESS_TTL ≤ now1) := by omega
        simp [verifyInState, verify_token, decode_token, create_access_token, hnle, hid]
    · exact absurd hlog (by simp [login, hv, ha])
  · exact absurd hlog (by simp [login, hv])

/-- Witness for C10: the access token minted by a concrete login verifies
after a logout has revoked the subject's refresh records. -/
theorem c10_witness :
    verifyInState
      (.bearer (.signed (create_access_token ⟨"5", "w@example.com", "user"⟩ "s" 100)))
      "s" 150
      (logout .missing "s" 200
        ((login (.found ⟨5, "w@example.com", "user", "W", hash_password "pw", true⟩)
          "pw" "s" 100 [] true).2)).2 =
      .ok ⟨5, "w@example.com", "user"⟩ :=
  c10_stateless_verification.2
    ⟨5, "w@example.com", "user", "W", hash_password "pw", true⟩
    "pw" "s" 100 150 200 [] true
    ⟨.signed (create_access_token ⟨"5", "w@example.com", "user"⟩ "s" 100),
     .signed (create_refresh_token ⟨"5", "w@example.com", "user"⟩ "s" 100),
     some ⟨5, "w@example.com", "W"⟩⟩
    .missing rfl (by decide) (by decide)

end AuthService
